import Mathlib

/-!
Shallow embedding of `src/nix_review/app.py` (the `nix-review` command-line
tool): the batch identifier parser `parse_pr_numbers`, the `Worktree` context
manager (directory creation, temporary nixpkgs config, environment mutation
and teardown), the `DisableKeyboardInterrupt` guard, and the `pr_command`
batch driver built on `contextlib.ExitStack`.

Process-wide state (the environment table `os.environ`, the set of existing
directories, live temporary files, printed lines, spawned external commands,
and the installed SIGINT handler) is threaded explicitly through a `World`
record.  Exceptions (`FileExistsError`, `FileNotFoundError` from
`shutil.rmtree`, `subprocess.CalledProcessError`, `sys.exit`) are modelled
with `Except` / `Option` error components.
-/

set_option autoImplicit false

namespace NixReview

/-- A process environment table (`os.environ`), modelled as a Python dict:
an insertion-ordered association list whose keys are unique. -/
abbrev Env := List (String × String)

/-- Python `d[k] = v` on a dict: if the key is present its value is replaced
in place, otherwise the binding is appended at the end. -/
def envSet : Env → String → String → Env
  | [], k, v => [(k, v)]
  | (k0, v0) :: rest, k, v =>
    if k0 = k then (k0, v) :: rest else (k0, v0) :: envSet rest k v

/-- Python `d.update(other)` on dicts: every binding of `other` is set in `d`;
keys of `d` not occurring in `other` keep their values. -/
def envUpdate (d other : Env) : Env :=
  other.foldl (fun acc kv => envSet acc kv.1 kv.2) d

/-- An installed SIGINT disposition: the process default, the warning-printing
handler installed by `DisableKeyboardInterrupt.__enter__`, or some other
previously installed Python handler (identified by a tag). -/
inductive Handler where
  | default
  | cleanupWarning
  | custom (tag : Nat)
  deriving DecidableEq, Repr

/-- The Python exceptions the embedded code can raise. -/
inductive PyErr where
  | fileExists (path : String)
  | fileNotFound (path : String)
  | calledProcessError
  deriving DecidableEq, Repr

/-- The process-wide state the program mutates: the environment table, the
existing worktree directories, the live `NamedTemporaryFile`s (by id, with a
counter for fresh ids), the lines printed so far, the external commands
spawned so far, and the installed SIGINT handler. -/
structure World where
  env : Env
  dirs : List String
  tmpFiles : List Nat
  tmpCounter : Nat
  output : List String
  events : List String
  handler : Handler
  deriving DecidableEq, Repr

/-- A convenient initial world: environment `e`, no directories, no temporary
files, nothing printed, default SIGINT handler. -/
def initialWorld (e : Env) : World :=
  { env := e, dirs := [], tmpFiles := [], tmpCounter := 0,
    output := [], events := [], handler := Handler.default }

/-- The name of the `tempfile.NamedTemporaryFile` with id `n`. -/
def tmpName (n : Nat) : String := "/tmp/nixpkgs-config-" ++ toString n

/-- `os.path.realpath`, modelled as the identity on the path string: path
canonicalisation is irrelevant to the claims, only the value stored in
`NIX_PATH` matters. -/
def realpath (p : String) : String := p

/-- The six environment-variable assignments performed at the end of
`Worktree.__init__`, in source order. -/
def initEnvVars (e : Env) (cfg : Nat) (worktree_dir : String) : Env :=
  let e1 := envSet e "NIXPKGS_CONFIG" (tmpName cfg)
  let e2 := envSet e1 "NIX_PATH" ("nixpkgs=" ++ realpath worktree_dir)
  let e3 := envSet e2 "GIT_AUTHOR_NAME" "nix-review"
  let e4 := envSet e3 "GIT_AUTHOR_EMAIL" "nix-review@example.com"
  let e5 := envSet e4 "GIT_COMMITTER_NAME" "nix-review"
  envSet e5 "GIT_COMMITTER_EMAIL" "nix-review@example.com"

/-- The state of one `Worktree` object after a successful `__init__`:
`worktree_dir` and `nixpkgs_config` are never `None` on this path, so they
are modelled without the `Optional`. -/
structure Worktree where
  worktree_dir : String
  nixpkgs_config : Nat
  environ : Env
  deriving DecidableEq, Repr

/-- `Worktree.__init__(name)`: compute `./.review/<name>`; if the directory
already exists, print the collision message and raise `FileExistsError`
before any other side effect; otherwise create the directory, create and
fill the temporary nixpkgs config file, snapshot `os.environ`, and set the
six environment variables (`NIXPKGS_CONFIG`, `NIX_PATH`, and the four git
identity variables). -/
def Worktree.init (w : World) (name : String) : Except PyErr Worktree × World :=
  let worktree_dir := "./.review/" ++ name
  if worktree_dir ∈ w.dirs then
    (Except.error (PyErr.fileExists worktree_dir),
     { w with output := w.output ++
        [worktree_dir ++ " already exists. Is a different review already running?"] })
  else
    let w1 := { w with dirs := w.dirs ++ [worktree_dir] }
    let cfg := w1.tmpCounter
    let w2 := { w1 with tmpFiles := w1.tmpFiles ++ [cfg],
                        tmpCounter := w1.tmpCounter + 1 }
    let environ := w2.env
    (Except.ok { worktree_dir := worktree_dir, nixpkgs_config := cfg, environ := environ },
     { w2 with env := initEnvVars w2.env cfg worktree_dir })

/-- The line printed by the handler `DisableKeyboardInterrupt` installs. -/
def ctrlCMessage : String :=
  "Ignore Ctlr-C: Cleanup in progress... Don\x27t be so impatient human!"

/-- `Worktree.__exit__`: close the temporary config file, `os.environ.update`
the saved snapshot into the current environment, then under
`DisableKeyboardInterrupt` (which installs the warning handler and restores
the previous one on the way out) run `shutil.rmtree`, `git worktree prune`
and `os.environ.clear()`.  The flag `sigint` injects one SIGINT delivery
inside the guarded region: the installed handler only prints the warning.
`shutil.rmtree` raises `FileNotFoundError` when the directory is missing,
which skips the remaining statements of the guarded block (the `with`
statement still restores the previous handler as the exception propagates). -/
def Worktree.exit (w : World) (wt : Worktree) (sigint : Bool) : Option PyErr × World :=
  let w1 := { w with tmpFiles := w.tmpFiles.erase wt.nixpkgs_config }
  let w2 := { w1 with env := envUpdate w1.env wt.environ }
  let previous := w2.handler
  let w3 := { w2 with handler := Handler.cleanupWarning }
  let w4 := if sigint then { w3 with output := w3.output ++ [ctrlCMessage] } else w3
  if wt.worktree_dir ∈ w4.dirs then
    let w5 := { w4 with dirs := w4.dirs.filter (fun d => d ≠ wt.worktree_dir) }
    let w6 := { w5 with events := w5.events ++ ["git worktree prune"] }
    let w7 := { w6 with env := [] }
    (none, { w7 with handler := previous })
  else
    (some (PyErr.fileNotFound wt.worktree_dir), { w4 with handler := previous })

/-- Numeric value of a digit string (most significant digit first). -/
def digitsToNat (ds : List Char) : Nat :=
  ds.foldl (fun n c => 10 * n + (c.toNat - 48)) 0

/-- `re.match(r"(\d+)-(\d+)", arg)`: anchored at the start of the string,
both digit groups greedy, any trailing characters ignored.  Returns the two
captured numbers on a match. -/
def matchRange (s : List Char) : Option (Nat × Nat) :=
  let d1 := s.takeWhile Char.isDigit
  let rest := s.dropWhile Char.isDigit
  if d1 = [] then none
  else
    match rest with
    | '-' :: rest2 =>
      let d2 := rest2.takeWhile Char.isDigit
      if d2 = [] then none else some (digitsToNat d1, digitsToNat d2)
    | _ => none

/-- Python `int(arg)` on a decimal string literal: optional surrounding
whitespace, an optional sign, then at least one digit; `none` models the
`ValueError`. -/
def pyInt (s : List Char) : Option Int :=
  let t := ((s.dropWhile Char.isWhitespace).reverse.dropWhile Char.isWhitespace).reverse
  match t with
  | '-' :: ds =>
    if ds ≠ [] ∧ ds.all Char.isDigit then some (-(digitsToNat ds : Int)) else none
  | '+' :: ds =>
    if ds ≠ [] ∧ ds.all Char.isDigit then some ((digitsToNat ds : Int)) else none
  | ds =>
    if ds ≠ [] ∧ ds.all Char.isDigit then some ((digitsToNat ds : Int)) else none

/-- The loop body of `parse_pr_numbers`, with the accumulated list `prs`.
A range match `m` contributes `range(int(m.group(1)), int(m.group(2)))`;
otherwise the token must satisfy `int(arg)`; otherwise the program prints
`f"expected number, got {m}"` — where `m` is the match object, which is
`None` on this branch — and calls `sys.exit(1)`, modelled as `Except.error`
carrying the printed message. -/
def parsePrLoop : List String → List Int → Except String (List Int)
  | [], prs => Except.ok prs
  | arg :: rest, prs =>
    match matchRange arg.data with
    | some (a, b) =>
      parsePrLoop rest (prs ++ (List.range (b - a)).map (fun i => (a : Int) + i))
    | none =>
      match pyInt arg.data with
      | some n => parsePrLoop rest (prs ++ [n])
      | none => Except.error "expected number, got None"

/-- `parse_pr_numbers(number_args)`. -/
def parse_pr_numbers (number_args : List String) : Except String (List Int) :=
  parsePrLoop number_args []

/-- The per-item failure line printed when `Review.build_pr` raises
`subprocess.CalledProcessError`. -/
def failLine (pr : Int) : String :=
  "https://github.com/NixOS/nixpkgs/pull/" ++ toString pr ++ " failed to build"

/-- The success line printed by the report loop; the f-string references the
variable `pr`. -/
def urlLine (pr : Int) : String :=
  "https://github.com/NixOS/nixpkgs/pull/" ++ toString pr

/-- Outcome of the first loop of `pr_command`: either all items were iterated
(carrying the world, the stack of entered worktrees — most recent first, as
`ExitStack` unwinds LIFO — the collected `attrsets`, the identifiers on which
`build_pr` was attempted, and the final value of the loop variable `pr`), or
a `Worktree.__init__` raised and the loop aborted. -/
inductive BuildLoopResult where
  | ok (w : World) (stack : List Worktree) (attrsets : List Int)
      (attempted : List Int) (lastPr : Option Int)
  | initFailed (w : World) (stack : List Worktree) (attempted : List Int) (e : PyErr)

/-- The first loop of `pr_command`: for each `pr`, enter a
`Worktree(f"pr-{pr}")` on the `ExitStack` (its `__init__` may raise, which
escapes the loop — it is outside the `try`), then attempt `build_pr(pr)`:
on success the attrset is appended to `attrsets` (modelled by the identifier
it was built for), on `CalledProcessError` the failure line is printed and
the loop continues.  `buildOk` is the build oracle: which identifiers build
successfully. -/
def buildLoop (buildOk : Int → Bool) :
    List Int → World → List Worktree → List Int → List Int → Option Int → BuildLoopResult
  | [], w, stack, attrsets, attempted, lastPr =>
      BuildLoopResult.ok w stack attrsets attempted lastPr
  | pr :: rest, w, stack, attrsets, attempted, _ =>
    match Worktree.init w ("pr-" ++ toString pr) with
    | (Except.error e, w1) => BuildLoopResult.initFailed w1 stack attempted e
    | (Except.ok wt, w1) =>
      if buildOk pr then
        buildLoop buildOk rest w1 (wt :: stack) (attrsets ++ [pr])
          (attempted ++ [pr]) (some pr)
      else
        let w2 := { w1 with output := w1.output ++ [failLine pr] }
        buildLoop buildOk rest w2 (wt :: stack) attrsets (attempted ++ [pr]) (some pr)

/-- `ExitStack` unwinding at the end of the `with` block: every entered
context's `__exit__` runs (most recently entered first), even if an earlier
one raised; the boolean records whether any of them raised. -/
def unwindStack : World → List Worktree → World × Bool
  | w, [] => (w, false)
  | w, wt :: rest =>
    let (e, w1) := Worktree.exit w wt false
    let (w2, b) := unwindStack w1 rest
    (w2, b || e.isSome)

/-- The observable outcome of one `pr_command` batch run: the world after the
`ExitStack` unwound, the identifiers build was attempted on, the success
lines printed by the report loop, the number of `nix_shell` invocations, the
process exit status, and — for stating liveness of worktrees — the stack and
world at the moment the report loop starts. -/
structure PrCommandResult where
  finalWorld : World
  attempted : List Int
  reportLines : List String
  shellCalls : Nat
  exitCode : Nat
  stackAtReport : List Worktree
  worldAtReport : World

/-- `pr_command` after `parse_pr_numbers` succeeded, on the parsed
identifiers `prs`: run the build loop; then for each collected attrset print
`f"https://github.com/NixOS/nixpkgs/pull/{pr}"` — `pr` is the build loop's
variable, holding the last iterated identifier — and invoke `nix_shell`;
then `sys.exit(1)` iff `len(attrsets) != len(prs)`; the `ExitStack` unwinds
in all cases (also when `__init__` raised, in which case the uncaught
exception terminates the process with a nonzero status). -/
def prCommand (buildOk : Int → Bool) (prs : List Int) (w0 : World) : PrCommandResult :=
  match buildLoop buildOk prs w0 [] [] [] none with
  | BuildLoopResult.initFailed w1 stack attempted _ =>
    let (w2, _) := unwindStack w1 stack
    { finalWorld := w2, attempted := attempted, reportLines := [], shellCalls := 0,
      exitCode := 1, stackAtReport := stack, worldAtReport := w1 }
  | BuildLoopResult.ok w1 stack attrsets attempted lastPr =>
    let lines := attrsets.map (fun _ => urlLine (lastPr.getD 0))
    let w2 := { w1 with
      output := w1.output ++ lines,
      events := w1.events ++ attrsets.map (fun a => "nix-shell pr-" ++ toString a) }
    let code := if attrsets.length ≠ prs.length then 1 else 0
    let (w3, _) := unwindStack w2 stack
    { finalWorld := w3, attempted := attempted, reportLines := lines,
      shellCalls := attrsets.length, exitCode := code,
      stackAtReport := stack, worldAtReport := w1 }

/-- The directory `pr_command` uses for identifier `pr`:
`./.review/pr-<pr>`, exactly as `Worktree.__init__` computes it from the
name `f"pr-{pr}"`. -/
def prDir (pr : Int) : String := "./.review/" ++ ("pr-" ++ toString pr)

/-- The value of a loop variable seeded with `last` after iterating over a
list: `none` only when both the seed is `none` and the list is empty. -/
def lastAux (last : Option Int) : List Int → Option Int
  | [] => last
  | p :: rest => lastAux (some p) rest

/-! Helper lemmas. -/

theorem Worktree.init_fresh (w : World) (name : String)
    (h : ("./.review/" ++ name) ∉ w.dirs) :
    Worktree.init w name =
      (Except.ok { worktree_dir := "./.review/" ++ name,
                   nixpkgs_config := w.tmpCounter, environ := w.env },
       { w with dirs := w.dirs ++ ["./.review/" ++ name],
                tmpFiles := w.tmpFiles ++ [w.tmpCounter],
                tmpCounter := w.tmpCounter + 1,
                env := initEnvVars w.env w.tmpCounter ("./.review/" ++ name) }) := by
  simp [Worktree.init, h]

theorem lastAux_eq (l : List Int) :
    ∀ last : Option Int, lastAux last l = Option.or l.getLast? last := by
  induction l with
  | nil => intro last; simp [lastAux]
  | cons p rest ih =>
    intro last
    cases rest with
    | nil => simp [lastAux, Option.or]
    | cons q t =>
      have hs : (q :: t).getLast?.isSome := by
        rw [List.getLast?_isSome]
        simp
      rw [show lastAux last (p :: q :: t) = lastAux (some p) (q :: t) from rfl, ih]
      rw [List.getLast?_cons_cons]
      obtain ⟨x, hx⟩ := Option.isSome_iff_exists.mp hs
      rw [hx]
      simp [Option.or]

theorem filter_length_partition (p : Int → Bool) (l : List Int) :
    (l.filter p).length + (l.filter (fun x => !p x)).length = l.length := by
  induction l with
  | nil => rfl
  | cons x xs ih =>
    cases hp : p x <;> simp [List.filter_cons, hp] <;> omega

theorem buildLoop_cons_fresh (buildOk : Int → Bool) (pr : Int) (rest : List Int)
    (w : World) (stack : List Worktree) (ats att : List Int) (last : Option Int)
    (hd : ("./.review/" ++ ("pr-" ++ toString pr)) ∉ w.dirs) :
    buildLoop buildOk (pr :: rest) w stack ats att last =
      (if buildOk pr then
        buildLoop buildOk rest
          { w with dirs := w.dirs ++ ["./.review/" ++ ("pr-" ++ toString pr)],
                   tmpFiles := w.tmpFiles ++ [w.tmpCounter],
                   tmpCounter := w.tmpCounter + 1,
                   env := initEnvVars w.env w.tmpCounter
                            ("./.review/" ++ ("pr-" ++ toString pr)) }
          ({ worktree_dir := "./.review/" ++ ("pr-" ++ toString pr),
             nixpkgs_config := w.tmpCounter, environ := w.env } :: stack)
          (ats ++ [pr]) (att ++ [pr]) (some pr)
      else
        buildLoop buildOk rest
          { w with dirs := w.dirs ++ ["./.review/" ++ ("pr-" ++ toString pr)],
                   tmpFiles := w.tmpFiles ++ [w.tmpCounter],
                   tmpCounter := w.tmpCounter + 1,
                   env := initEnvVars w.env w.tmpCounter
                            ("./.review/" ++ ("pr-" ++ toString pr)),
                   output := w.output ++ [failLine pr] }
          ({ worktree_dir := "./.review/" ++ ("pr-" ++ toString pr),
             nixpkgs_config := w.tmpCounter, environ := w.env } :: stack)
          ats (att ++ [pr]) (some pr)) := by
  simp only [buildLoop]
  rw [Worktree.init_fresh w _ hd]

theorem buildLoop_ok (buildOk : Int → Bool) :
    ∀ (prs : List Int) (w : World) (stack : List Worktree) (ats att : List Int)
      (last : Option Int),
      (∀ pr ∈ prs, prDir pr ∉ w.dirs) → (prs.map prDir).Nodup →
      ∃ w' stack',
        buildLoop buildOk prs w stack ats att last =
          BuildLoopResult.ok w' stack' (ats ++ prs.filter buildOk) (att ++ prs)
            (lastAux last prs) ∧
        w'.dirs = w.dirs ++ prs.map prDir ∧
        stack'.length = stack.length + prs.length := by
  intro prs
  induction prs with
  | nil =>
    intro w stack ats att last _ _
    exact ⟨w, stack, by simp [buildLoop, lastAux], by simp, by simp⟩
  | cons pr rest ih =>
    intro w stack ats att last hfresh hnodup
    have hd : ("./.review/" ++ ("pr-" ++ toString pr)) ∉ w.dirs :=
      hfresh pr (List.mem_cons_self pr rest)
    rw [List.map_cons, List.nodup_cons] at hnodup
    have hfresh' : ∀ p ∈ rest, prDir p ∉ w.dirs ++ [prDir pr] := by
      intro p hp
      have h1 := hfresh p (List.mem_cons_of_mem pr hp)
      have h2 : prDir p ≠ prDir pr :=
        fun he => hnodup.1 (he ▸ List.mem_map_of_mem prDir hp)
      simp only [List.mem_append, List.mem_singleton]
      rintro (hc | hc)
      exacts [h1 hc, h2 hc]
    rw [buildLoop_cons_fresh buildOk pr rest w stack ats att last hd]
    cases hb : buildOk pr with
    | true =>
      obtain ⟨w', stack', heq, hdirs, hlen⟩ :=
        ih { w with dirs := w.dirs ++ ["./.review/" ++ ("pr-" ++ toString pr)],
                    tmpFiles := w.tmpFiles ++ [w.tmpCounter],
                    tmpCounter := w.tmpCounter + 1,
                    env := initEnvVars w.env w.tmpCounter
                             ("./.review/" ++ ("pr-" ++ toString pr)) }
          ({ worktree_dir := "./.review/" ++ ("pr-" ++ toString pr),
             nixpkgs_config := w.tmpCounter, environ := w.env } :: stack)
          (ats ++ [pr]) (att ++ [pr]) (some pr)
          (fun p hp => hfresh' p hp) hnodup.2
      refine ⟨w', stack', ?_, ?_, ?_⟩
      · rw [if_pos rfl, heq]
        simp [List.filter_cons, hb, lastAux, prDir]
      · rw [hdirs]
        simp [prDir]
      · rw [hlen]
        simp only [List.length_cons]
        omega
    | false =>
      obtain ⟨w', stack', heq, hdirs, hlen⟩ :=
        ih { w with dirs := w.dirs ++ ["./.review/" ++ ("pr-" ++ toString pr)],
                    tmpFiles := w.tmpFiles ++ [w.tmpCounter],
                    tmpCounter := w.tmpCounter + 1,
                    env := initEnvVars w.env w.tmpCounter
                             ("./.review/" ++ ("pr-" ++ toString pr)),
                    output := w.output ++ [failLine pr] }
          ({ worktree_dir := "./.review/" ++ ("pr-" ++ toString pr),
             nixpkgs_config := w.tmpCounter, environ := w.env } :: stack)
          ats (att ++ [pr]) (some pr)
          (fun p hp => hfresh' p hp) hnodup.2
      refine ⟨w', stack', ?_, ?_, ?_⟩
      · rw [if_neg (by simp [hb]), heq]
        simp [List.filter_cons, hb, lastAux, prDir]
      · rw [hdirs]
        simp [prDir]
      · rw [hlen]
        simp only [List.length_cons]
        omega

/-! Claim theorems: identifier parsing. -/

/-- C5: the parser maps the tokens `["5", "10-12"]` to `[5, 10, 11]` (plain
integer, then the half-open range, in token order), and a token matching
neither form terminates the session fatally — but the fatal message is the
constant `expected number, got None`: the source formats the failed regex
match object `m` (which is `None` on that branch) instead of the offending
token, so the error does not list the token. -/
theorem parse_pr_numbers_error_message :
    parse_pr_numbers ["5", "10-12"] = Except.ok [5, 10, 11] ∧
    parse_pr_numbers ["foo"] = Except.error "expected number, got None" := by
  constructor <;> rfl

/-- C10: a token the range pattern recognises with bounds `a`, `b` where
`a ≥ b` parses successfully and contributes no identifiers at all (the
half-open range is empty); no error is signalled and nothing is printed. -/
theorem parse_pr_numbers_empty_range (s : String) (a b : Nat)
    (hm : matchRange s.data = some (a, b)) (hab : b ≤ a) :
    parse_pr_numbers [s] = Except.ok [] := by
  simp [parse_pr_numbers, parsePrLoop, hm, Nat.sub_eq_zero_of_le hab]

/-- Witness for C10 at the concrete token `"5-3"`. -/
theorem parse_pr_numbers_empty_range_witness :
    matchRange ("5-3" : String).data = some (5, 3) ∧ 3 ≤ 5 ∧
    parse_pr_numbers ["5-3"] = Except.ok [] :=
  ⟨by decide, by decide, parse_pr_numbers_empty_range "5-3" 5 3 (by decide) (by decide)⟩

/-! Claim theorems: the Worktree lifecycle. -/

/-- C1: evaluating the round trip at a concrete input. Starting from an
environment holding only `PATH`, acquiring the worktree `pr-5` and releasing
it leaves the session directory removed — but the environment table after
teardown is empty, not equal to the pre-acquisition snapshot: `__exit__`
runs `os.environ.update(self.environ)` first and `os.environ.clear()` last,
so the restore is wiped out. -/
theorem worktree_exit_env_cleared :
    (Worktree.init (initialWorld [("PATH", "/bin")]) "pr-5").fst =
      Except.ok { worktree_dir := "./.review/pr-5", nixpkgs_config := 0,
                  environ := [("PATH", "/bin")] } ∧
    (Worktree.exit (Worktree.init (initialWorld [("PATH", "/bin")]) "pr-5").snd
        { worktree_dir := "./.review/pr-5", nixpkgs_config := 0,
          environ := [("PATH", "/bin")] } false).fst = none ∧
    (Worktree.exit (Worktree.init (initialWorld [("PATH", "/bin")]) "pr-5").snd
        { worktree_dir := "./.review/pr-5", nixpkgs_config := 0,
          environ := [("PATH", "/bin")] } false).snd.env = [] ∧
    (Worktree.exit (Worktree.init (initialWorld [("PATH", "/bin")]) "pr-5").snd
        { worktree_dir := "./.review/pr-5", nixpkgs_config := 0,
          environ := [("PATH", "/bin")] } false).snd.env ≠ [("PATH", "/bin")] ∧
    "./.review/pr-5" ∉
      (Worktree.exit (Worktree.init (initialWorld [("PATH", "/bin")]) "pr-5").snd
        { worktree_dir := "./.review/pr-5", nixpkgs_config := 0,
          environ := [("PATH", "/bin")] } false).snd.dirs :=
  ⟨rfl, rfl, rfl, by decide, by decide⟩

/-- C4: a SIGINT delivered while the guarded part of teardown is in progress
is observed only as the printed warning: every other component of the final
state (environment, directories, temporary files, spawned commands) is the
same as in the undisturbed run, the directory removal completes, and the
exact previously installed handler is restored on exit from the guarded
block. -/
theorem disable_keyboard_interrupt_teardown (w : World) (wt : Worktree)
    (h : wt.worktree_dir ∈ w.dirs) :
    (Worktree.exit w wt true).fst = none ∧
    (Worktree.exit w wt true).snd.env = (Worktree.exit w wt false).snd.env ∧
    (Worktree.exit w wt true).snd.dirs = (Worktree.exit w wt false).snd.dirs ∧
    wt.worktree_dir ∉ (Worktree.exit w wt true).snd.dirs ∧
    (Worktree.exit w wt true).snd.tmpFiles = (Worktree.exit w wt false).snd.tmpFiles ∧
    (Worktree.exit w wt true).snd.events = (Worktree.exit w wt false).snd.events ∧
    (Worktree.exit w wt true).snd.handler = w.handler ∧
    (Worktree.exit w wt true).snd.output =
      (Worktree.exit w wt false).snd.output ++ [ctrlCMessage] := by
  simp [Worktree.exit, h]

/-- Witness for C4: a concrete teardown under a previously installed custom
handler. -/
theorem disable_keyboard_interrupt_teardown_witness :
    ("./.review/pr-5" ∈
      (World.mk [("PATH", "/bin")] ["./.review/pr-5"] [0] 1 [] []
        (Handler.custom 7)).dirs) ∧
    ((Worktree.exit
        (World.mk [("PATH", "/bin")] ["./.review/pr-5"] [0] 1 [] []
          (Handler.custom 7))
        (Worktree.mk "./.review/pr-5" 0 [("PATH", "/bin")]) true).fst = none ∧
     (Worktree.exit
        (World.mk [("PATH", "/bin")] ["./.review/pr-5"] [0] 1 [] []
          (Handler.custom 7))
        (Worktree.mk "./.review/pr-5" 0 [("PATH", "/bin")]) true).snd.env =
      (Worktree.exit
        (World.mk [("PATH", "/bin")] ["./.review/pr-5"] [0] 1 [] []
          (Handler.custom 7))
        (Worktree.mk "./.review/pr-5" 0 [("PATH", "/bin")]) false).snd.env ∧
     (Worktree.exit
        (World.mk [("PATH", "/bin")] ["./.review/pr-5"] [0] 1 [] []
          (Handler.custom 7))
        (Worktree.mk "./.review/pr-5" 0 [("PATH", "/bin")]) true).snd.dirs =
      (Worktree.exit
        (World.mk [("PATH", "/bin")] ["./.review/pr-5"] [0] 1 [] []
          (Handler.custom 7))
        (Worktree.mk "./.review/pr-5" 0 [("PATH", "/bin")]) false).snd.dirs ∧
     "./.review/pr-5" ∉
      (Worktree.exit
        (World.mk [("PATH", "/bin")] ["./.review/pr-5"] [0] 1 [] []
          (Handler.custom 7))
        (Worktree.mk "./.review/pr-5" 0 [("PATH", "/bin")]) true).snd.dirs ∧
     (Worktree.exit
        (World.mk [("PATH", "/bin")] ["./.review/pr-5"] [0] 1 [] []
          (Handler.custom 7))
        (Worktree.mk "./.review/pr-5" 0 [("PATH", "/bin")]) true).snd.tmpFiles =
      (Worktree.exit
        (World.mk [("PATH", "/bin")] ["./.review/pr-5"] [0] 1 [] []
          (Handler.custom 7))
        (Worktree.mk "./.review/pr-5" 0 [("PATH", "/bin")]) false).snd.tmpFiles ∧
     (Worktree.exit
        (World.mk [("PATH", "/bin")] ["./.review/pr-5"] [0] 1 [] []
          (Handler.custom 7))
        (Worktree.mk "./.review/pr-5" 0 [("PATH", "/bin")]) true).snd.events =
      (Worktree.exit
        (World.mk [("PATH", "/bin")] ["./.review/pr-5"] [0] 1 [] []
          (Handler.custom 7))
        (Worktree.mk "./.review/pr-5" 0 [("PATH", "/bin")]) false).snd.events ∧
     (Worktree.exit
        (World.mk [("PATH", "/bin")] ["./.review/pr-5"] [0] 1 [] []
          (Handler.custom 7))
        (Worktree.mk "./.review/pr-5" 0 [("PATH", "/bin")]) true).snd.handler =
      (World.mk [("PATH", "/bin")] ["./.review/pr-5"] [0] 1 [] []
        (Handler.custom 7)).handler ∧
     (Worktree.exit
        (World.mk [("PATH", "/bin")] ["./.review/pr-5"] [0] 1 [] []
          (Handler.custom 7))
        (Worktree.mk "./.review/pr-5" 0 [("PATH", "/bin")]) true).snd.output =
      (Worktree.exit
        (World.mk [("PATH", "/bin")] ["./.review/pr-5"] [0] 1 [] []
          (Handler.custom 7))
        (Worktree.mk "./.review/pr-5" 0 [("PATH", "/bin")]) false).snd.output ++
        [ctrlCMessage]) :=
  ⟨by decide,
   disable_keyboard_interrupt_teardown
     (World.mk [("PATH", "/bin")] ["./.review/pr-5"] [0] 1 [] [] (Handler.custom 7))
     (Worktree.mk "./.review/pr-5" 0 [("PATH", "/bin")]) (by decide)⟩

/-- C6: acquiring a worktree whose directory already exists raises the
distinct `FileExistsError` and mutates nothing except printing the collision
message: environment, temporary files, file counter, directories and signal
handler are untouched, so an existing session for that identity keeps its
state. -/
theorem worktree_init_collision (w : World) (name : String)
    (h : ("./.review/" ++ name) ∈ w.dirs) :
    (Worktree.init w name).fst =
      Except.error (PyErr.fileExists ("./.review/" ++ name)) ∧
    (Worktree.init w name).snd.env = w.env ∧
    (Worktree.init w name).snd.tmpFiles = w.tmpFiles ∧
    (Worktree.init w name).snd.tmpCounter = w.tmpCounter ∧
    (Worktree.init w name).snd.dirs = w.dirs ∧
    (Worktree.init w name).snd.handler = w.handler ∧
    (Worktree.init w name).snd.output = w.output ++
      ["./.review/" ++ name ++
        " already exists. Is a different review already running?"] := by
  simp [Worktree.init, h]

/-- Witness for C6: a second acquisition of `pr-5` while the first session
(directory present, its config file live, its environment mutations in
place) is still running. -/
theorem worktree_init_collision_witness :
    ("./.review/" ++ "pr-5") ∈
      (World.mk [("PATH", "/bin")] ["./.review/pr-5"] [0] 1 [] []
        Handler.default).dirs ∧
    ((Worktree.init
        (World.mk [("PATH", "/bin")] ["./.review/pr-5"] [0] 1 [] []
          Handler.default) "pr-5").fst =
      Except.error (PyErr.fileExists ("./.review/" ++ "pr-5")) ∧
     (Worktree.init
        (World.mk [("PATH", "/bin")] ["./.review/pr-5"] [0] 1 [] []
          Handler.default) "pr-5").snd.env =
      (World.mk [("PATH", "/bin")] ["./.review/pr-5"] [0] 1 [] []
        Handler.default).env ∧
     (Worktree.init
        (World.mk [("PATH", "/bin")] ["./.review/pr-5"] [0] 1 [] []
          Handler.default) "pr-5").snd.tmpFiles =
      (World.mk [("PATH", "/bin")] ["./.review/pr-5"] [0] 1 [] []
        Handler.default).tmpFiles ∧
     (Worktree.init
        (World.mk [("PATH", "/bin")] ["./.review/pr-5"] [0] 1 [] []
          Handler.default) "pr-5").snd.tmpCounter =
      (World.mk [("PATH", "/bin")] ["./.review/pr-5"] [0] 1 [] []
        Handler.default).tmpCounter ∧
     (Worktree.init
        (World.mk [("PATH", "/bin")] ["./.review/pr-5"] [0] 1 [] []
          Handler.default) "pr-5").snd.dirs =
      (World.mk [("PATH", "/bin")] ["./.review/pr-5"] [0] 1 [] []
        Handler.default).dirs ∧
     (Worktree.init
        (World.mk [("PATH", "/bin")] ["./.review/pr-5"] [0] 1 [] []
          Handler.default) "pr-5").snd.handler =
      (World.mk [("PATH", "/bin")] ["./.review/pr-5"] [0] 1 [] []
        Handler.default).handler ∧
     (Worktree.init
        (World.mk [("PATH", "/bin")] ["./.review/pr-5"] [0] 1 [] []
          Handler.default) "pr-5").snd.output =
      (World.mk [("PATH", "/bin")] ["./.review/pr-5"] [0] 1 [] []
        Handler.default).output ++
        ["./.review/" ++ "pr-5" ++
          " already exists. Is a different review already running?"]) :=
  ⟨by decide,
   worktree_init_collision
     (World.mk [("PATH", "/bin")] ["./.review/pr-5"] [0] 1 [] [] Handler.default)
     "pr-5" (by decide)⟩

/-- C7 counterexample: when the session directory no longer exists at
teardown time, teardown is not silent — `shutil.rmtree` raises
`FileNotFoundError` (the world shown is the post-acquisition world for
`pr-5` whose directory was removed externally). -/
theorem worktree_exit_missing_dir_raises :
    (Worktree.exit
        (World.mk [("PATH", "/bin")] [] [0] 1 [] [] Handler.default)
        (Worktree.mk "./.review/pr-5" 0 [("PATH", "/bin")]) false).fst =
      some (PyErr.fileNotFound "./.review/pr-5") := by
  decide

/-- C7 as amended: if the session directory no longer exists when teardown
runs, the removal step raises `FileNotFoundError` instead of being tolerated
silently; the steps before it (config-file close and environment update)
have already run, the directory table is unchanged, and the previously
installed signal handler is restored as the error propagates. -/
theorem worktree_exit_missing_dir_behavior (w : World) (wt : Worktree)
    (h : wt.worktree_dir ∉ w.dirs) :
    (Worktree.exit w wt false).fst = some (PyErr.fileNotFound wt.worktree_dir) ∧
    (Worktree.exit w wt false).snd.tmpFiles = w.tmpFiles.erase wt.nixpkgs_config ∧
    (Worktree.exit w wt false).snd.env = envUpdate w.env wt.environ ∧
    (Worktree.exit w wt false).snd.dirs = w.dirs ∧
    (Worktree.exit w wt false).snd.handler = w.handler := by
  simp [Worktree.exit, h]

/-- Witness for the amended C7 at a concrete post-acquisition world whose
directory was removed externally. -/
theorem worktree_exit_missing_dir_behavior_witness :
    (Worktree.mk "./.review/pr-5" 0 [("PATH", "/bin")]).worktree_dir ∉
      (World.mk [("PATH", "/bin")] [] [0] 1 [] [] Handler.default).dirs ∧
    ((Worktree.exit
        (World.mk [("PATH", "/bin")] [] [0] 1 [] [] Handler.default)
        (Worktree.mk "./.review/pr-5" 0 [("PATH", "/bin")]) false).fst =
      some (PyErr.fileNotFound
        (Worktree.mk "./.review/pr-5" 0 [("PATH", "/bin")]).worktree_dir) ∧
     (Worktree.exit
        (World.mk [("PATH", "/bin")] [] [0] 1 [] [] Handler.default)
        (Worktree.mk "./.review/pr-5" 0 [("PATH", "/bin")]) false).snd.tmpFiles =
      (World.mk [("PATH", "/bin")] [] [0] 1 [] [] Handler.default).tmpFiles.erase
        (Worktree.mk "./.review/pr-5" 0 [("PATH", "/bin")]).nixpkgs_config ∧
     (Worktree.exit
        (World.mk [("PATH", "/bin")] [] [0] 1 [] [] Handler.default)
        (Worktree.mk "./.review/pr-5" 0 [("PATH", "/bin")]) false).snd.env =
      envUpdate (World.mk [("PATH", "/bin")] [] [0] 1 [] [] Handler.default).env
        (Worktree.mk "./.review/pr-5" 0 [("PATH", "/bin")]).environ ∧
     (Worktree.exit
        (World.mk [("PATH", "/bin")] [] [0] 1 [] [] Handler.default)
        (Worktree.mk "./.review/pr-5" 0 [("PATH", "/bin")]) false).snd.dirs =
      (World.mk [("PATH", "/bin")] [] [0] 1 [] [] Handler.default).dirs ∧
     (Worktree.exit
        (World.mk [("PATH", "/bin")] [] [0] 1 [] [] Handler.default)
        (Worktree.mk "./.review/pr-5" 0 [("PATH", "/bin")]) false).snd.handler =
      (World.mk [("PATH", "/bin")] [] [0] 1 [] [] Handler.default).handler) :=
  ⟨by decide,
   worktree_exit_missing_dir_behavior
     (World.mk [("PATH", "/bin")] [] [0] 1 [] [] Handler.default)
     (Worktree.mk "./.review/pr-5" 0 [("PATH", "/bin")]) (by decide)⟩

/-- C8 counterexample: when the directory-removal step of teardown fails
(missing directory), the remaining teardown actions are not attempted before
the error surfaces: no `git worktree prune` is spawned and the
environment-clearing statement never runs (the environment stays nonempty),
so cleanup stops at the first failing step. -/
theorem worktree_exit_error_stops_cleanup :
    (Worktree.exit
        (World.mk [("PATH", "/bin")] [] [0] 1 [] [] Handler.default)
        (Worktree.mk "./.review/pr-5" 0 [("PATH", "/bin")]) false).fst.isSome = true ∧
    (Worktree.exit
        (World.mk [("PATH", "/bin")] [] [0] 1 [] [] Handler.default)
        (Worktree.mk "./.review/pr-5" 0 [("PATH", "/bin")]) false).snd.events = [] ∧
    (Worktree.exit
        (World.mk [("PATH", "/bin")] [] [0] 1 [] [] Handler.default)
        (Worktree.mk "./.review/pr-5" 0 [("PATH", "/bin")]) false).snd.env =
      [("PATH", "/bin")] ∧
    ([("PATH", "/bin")] : Env) ≠ [] := by
  refine ⟨?_, ?_, ?_, ?_⟩ <;> decide

/-- C8 as amended: if a teardown step fails, the error propagates
immediately and the remaining teardown actions are not attempted: after the
directory removal fails, no further external command is spawned and the
environment keeps the value produced by the earlier update step; only the
restoration of the previous signal handler (performed by the guard's own
exit) still runs. -/
theorem worktree_exit_error_skips_rest (w : World) (wt : Worktree) (sig : Bool)
    (h : wt.worktree_dir ∉ w.dirs) :
    (Worktree.exit w wt sig).fst.isSome = true ∧
    (Worktree.exit w wt sig).snd.events = w.events ∧
    (Worktree.exit w wt sig).snd.env = envUpdate w.env wt.environ ∧
    (Worktree.exit w wt sig).snd.handler = w.handler := by
  cases sig <;> simp [Worktree.exit, h]

/-- Witness for the amended C8, with a SIGINT also delivered during the
failing teardown. -/
theorem worktree_exit_error_skips_rest_witness :
    (Worktree.mk "./.review/pr-5" 0 [("PATH", "/bin")]).worktree_dir ∉
      (World.mk [("PATH", "/bin")] [] [0] 1 [] [] Handler.default).dirs ∧
    ((Worktree.exit
        (World.mk [("PATH", "/bin")] [] [0] 1 [] [] Handler.default)
        (Worktree.mk "./.review/pr-5" 0 [("PATH", "/bin")]) true).fst.isSome = true ∧
     (Worktree.exit
        (World.mk [("PATH", "/bin")] [] [0] 1 [] [] Handler.default)
        (Worktree.mk "./.review/pr-5" 0 [("PATH", "/bin")]) true).snd.events =
      (World.mk [("PATH", "/bin")] [] [0] 1 [] [] Handler.default).events ∧
     (Worktree.exit
        (World.mk [("PATH", "/bin")] [] [0] 1 [] [] Handler.default)
        (Worktree.mk "./.review/pr-5" 0 [("PATH", "/bin")]) true).snd.env =
      envUpdate (World.mk [("PATH", "/bin")] [] [0] 1 [] [] Handler.default).env
        (Worktree.mk "./.review/pr-5" 0 [("PATH", "/bin")]).environ ∧
     (Worktree.exit
        (World.mk [("PATH", "/bin")] [] [0] 1 [] [] Handler.default)
        (Worktree.mk "./.review/pr-5" 0 [("PATH", "/bin")]) true).snd.handler =
      (World.mk [("PATH", "/bin")] [] [0] 1 [] [] Handler.default).handler) :=
  ⟨by decide,
   worktree_exit_error_skips_rest
     (World.mk [("PATH", "/bin")] [] [0] 1 [] [] Handler.default)
     (Worktree.mk "./.review/pr-5" 0 [("PATH", "/bin")]) true (by decide)⟩

/-! Claim theorems: the batch driver. -/

theorem prCommand_of_ok (buildOk : Int → Bool) (prs : List Int) (w0 : World)
    (w1 : World) (stack : List Worktree) (attrsets attempted : List Int)
    (lastPr : Option Int)
    (heq : buildLoop buildOk prs w0 [] [] [] none =
      BuildLoopResult.ok w1 stack attrsets attempted lastPr) :
    prCommand buildOk prs w0 =
      { finalWorld := (unwindStack
          { w1 with
            output := w1.output ++ attrsets.map (fun _ => urlLine (lastPr.getD 0)),
            events := w1.events ++
              attrsets.map (fun a => "nix-shell pr-" ++ toString a) }
          stack).fst,
        attempted := attempted,
        reportLines := attrsets.map (fun _ => urlLine (lastPr.getD 0)),
        shellCalls := attrsets.length,
        exitCode := if attrsets.length ≠ prs.length then 1 else 0,
        stackAtReport := stack,
        worldAtReport := w1 } := by
  unfold prCommand
  rw [heq]

/-- C2: in a batch of `N = prs.length` fresh, pairwise distinct identifiers
of which `K` fail to build, every identifier has its build attempted (a
build failure does not stop later items), `nix_shell` is invoked exactly
`N - K` times (once per successful item), and the process exit status is
nonzero iff `K > 0`. -/
theorem pr_command_batch_counts (buildOk : Int → Bool) (prs : List Int) (w0 : World)
    (hfresh : ∀ pr ∈ prs, prDir pr ∉ w0.dirs)
    (hnodup : (prs.map prDir).Nodup) :
    (prCommand buildOk prs w0).attempted = prs ∧
    (prCommand buildOk prs w0).shellCalls =
      prs.length - (prs.filter (fun p => !buildOk p)).length ∧
    ((prCommand buildOk prs w0).exitCode ≠ 0 ↔
      0 < (prs.filter (fun p => !buildOk p)).length) := by
  obtain ⟨w', stack', heq, -, -⟩ :=
    buildLoop_ok buildOk prs w0 [] [] [] none hfresh hnodup
  rw [prCommand_of_ok buildOk prs w0 w' stack' _ _ _ heq]
  have hpart := filter_length_partition buildOk prs
  refine ⟨by simp, ?_, ?_⟩
  · show ([] ++ prs.filter buildOk).length =
      prs.length - (prs.filter (fun p => !buildOk p)).length
    simp only [List.nil_append]
    omega
  · show (if ([] ++ prs.filter buildOk).length ≠ prs.length then 1 else 0) ≠ 0 ↔
      0 < (prs.filter (fun p => !buildOk p)).length
    simp only [List.nil_append]
    by_cases hc : (prs.filter buildOk).length ≠ prs.length
    · rw [if_pos hc]
      simp only [ne_eq, one_ne_zero, not_false_eq_true, true_iff]
      omega
    · rw [if_neg hc]
      simp only [ne_eq, not_true_eq_false, false_iff, not_lt, Nat.le_zero]
      omega

/-- Witness for C2: three identifiers of which the middle one fails to
build. -/
theorem pr_command_batch_counts_witness :
    (∀ pr ∈ ([1, 2, 3] : List Int),
      prDir pr ∉ (initialWorld [("PATH", "/bin")]).dirs) ∧
    (([1, 2, 3] : List Int).map prDir).Nodup ∧
    ((prCommand (fun p => decide (p ≠ 2)) [1, 2, 3]
        (initialWorld [("PATH", "/bin")])).attempted = [1, 2, 3] ∧
     (prCommand (fun p => decide (p ≠ 2)) [1, 2, 3]
        (initialWorld [("PATH", "/bin")])).shellCalls =
      ([1, 2, 3] : List Int).length -
        (([1, 2, 3] : List Int).filter (fun p => !decide (p ≠ 2))).length ∧
     ((prCommand (fun p => decide (p ≠ 2)) [1, 2, 3]
        (initialWorld [("PATH", "/bin")])).exitCode ≠ 0 ↔
      0 < (([1, 2, 3] : List Int).filter (fun p => !decide (p ≠ 2))).length)) :=
  ⟨by decide, by decide,
   pr_command_batch_counts (fun p => decide (p ≠ 2)) [1, 2, 3]
     (initialWorld [("PATH", "/bin")]) (by decide) (by decide)⟩

/-- C9: the report loop prints, for every collected success, the reference
URL of the last processed identifier — it reads the build loop's variable
`pr` after that loop has ended, not a per-item value — so the success lines
are `N - K` copies of the last identifier's URL. -/
theorem pr_command_report_uses_last (buildOk : Int → Bool) (prs : List Int)
    (w0 : World)
    (hfresh : ∀ pr ∈ prs, prDir pr ∉ w0.dirs)
    (hnodup : (prs.map prDir).Nodup)
    (hne : prs ≠ [])
    (hsucc : prs.filter buildOk ≠ []) :
    (prCommand buildOk prs w0).reportLines =
      List.replicate (prs.filter buildOk).length
        (urlLine (prs.getLast?.getD 0)) := by
  obtain ⟨w', stack', heq, -, -⟩ :=
    buildLoop_ok buildOk prs w0 [] [] [] none hfresh hnodup
  rw [prCommand_of_ok buildOk prs w0 w' stack' _ _ _ heq]
  show ([] ++ prs.filter buildOk).map
      (fun _ => urlLine ((lastAux none prs).getD 0)) =
    List.replicate (prs.filter buildOk).length (urlLine (prs.getLast?.getD 0))
  rw [lastAux_eq prs none]
  have hor : Option.or prs.getLast? none = prs.getLast? := by
    cases prs.getLast? <;> rfl
  rw [hor]
  simp

/-- Witness for C9: identifiers `[1, 2]` where only item `1` builds; the one
success line shown is nevertheless the URL of identifier `2`. -/
theorem pr_command_report_uses_last_witness :
    (∀ pr ∈ ([1, 2] : List Int),
      prDir pr ∉ (initialWorld [("PATH", "/bin")]).dirs) ∧
    (([1, 2] : List Int).map prDir).Nodup ∧
    ([1, 2] : List Int) ≠ [] ∧
    ([1, 2] : List Int).filter (fun p => decide (p = 1)) ≠ [] ∧
    (prCommand (fun p => decide (p = 1)) [1, 2]
        (initialWorld [("PATH", "/bin")])).reportLines =
      List.replicate
        (([1, 2] : List Int).filter (fun p => decide (p = 1))).length
        (urlLine (([1, 2] : List Int).getLast?.getD 0)) :=
  ⟨by decide, by decide, by decide, by decide,
   pr_command_report_uses_last (fun p => decide (p = 1)) [1, 2]
     (initialWorld [("PATH", "/bin")]) (by decide) (by decide) (by decide)
     (by decide)⟩

/-- C3 counterexample: a batch of two identifiers that both build. When the
report phase starts, the batch's two worktrees are both still live — both
session directories exist and both contexts are still on the `ExitStack` —
so the first item's worktree was not released (environment restored,
directory removed) before the second was acquired. -/
theorem pr_command_two_worktrees_live :
    (prCommand (fun _ => true) [1, 2]
        (initialWorld [("PATH", "/bin")])).stackAtReport.length = 2 ∧
    "./.review/pr-1" ∈
      (prCommand (fun _ => true) [1, 2]
        (initialWorld [("PATH", "/bin")])).worldAtReport.dirs ∧
    "./.review/pr-2" ∈
      (prCommand (fun _ => true) [1, 2]
        (initialWorld [("PATH", "/bin")])).worldAtReport.dirs := by
  refine ⟨?_, ?_, ?_⟩ <;> decide

/-- C3 as amended: during a batch session worktrees are not released between
items — the `ExitStack` accumulates them, so when the report phase starts
all `N` worktrees of the batch are simultaneously live (one entered context
per item, every item's directory still existing); they are only released
when the batch scope exits. -/
theorem pr_command_worktrees_accumulate (buildOk : Int → Bool) (prs : List Int)
    (w0 : World)
    (hfresh : ∀ pr ∈ prs, prDir pr ∉ w0.dirs)
    (hnodup : (prs.map prDir).Nodup) :
    (prCommand buildOk prs w0).stackAtReport.length = prs.length ∧
    ∀ pr ∈ prs, prDir pr ∈ (prCommand buildOk prs w0).worldAtReport.dirs := by
  obtain ⟨w', stack', heq, hdirs, hlen⟩ :=
    buildLoop_ok buildOk prs w0 [] [] [] none hfresh hnodup
  rw [prCommand_of_ok buildOk prs w0 w' stack' _ _ _ heq]
  constructor
  · show stack'.length = prs.length
    simpa using hlen
  · intro pr hp
    show prDir pr ∈ w'.dirs
    rw [hdirs]
    exact List.mem_append.mpr (Or.inr (List.mem_map_of_mem prDir hp))

/-- Witness for the amended C3 at the batch `[1, 2]`. -/
theorem pr_command_worktrees_accumulate_witness :
    (∀ pr ∈ ([1, 2] : List Int),
      prDir pr ∉ (initialWorld [("PATH", "/bin")]).dirs) ∧
    (([1, 2] : List Int).map prDir).Nodup ∧
    ((prCommand (fun _ => true) [1, 2]
        (initialWorld [("PATH", "/bin")])).stackAtReport.length =
      ([1, 2] : List Int).length ∧
     ∀ pr ∈ ([1, 2] : List Int),
      prDir pr ∈ (prCommand (fun _ => true) [1, 2]
        (initialWorld [("PATH", "/bin")])).worldAtReport.dirs) :=
  ⟨by decide, by decide,
   pr_command_worktrees_accumulate (fun _ => true) [1, 2]
     (initialWorld [("PATH", "/bin")]) (by decide) (by decide)⟩

end NixReview
